import Mathlib

/-!
Verification development for the SubGen-Azure-Batch transcription service.

The definitions below are shallow embeddings of the Python source under
src/app.  Stateful code is modelled by explicit state passing over a
process-local store; external effects (Azure HTTP calls, the filesystem,
concurrent cancellation flags) are supplied as oracle parameters so that
each run of an orchestrator pipeline is a pure function of its environment.
Timestamps are abstract Nat ticks.
-/

/-- Job status values, from JobStatus in app/transcription_service.py. -/
inductive JobStatus
  | pending
  | extracting
  | uploading
  | transcribing
  | completed
  | failed
  | cancelled
deriving DecidableEq

/-- Source of a transcription job, from JobSource in app/transcription_service.py. -/
inductive JobSource
  | ui
  | bazarr
  | api
  | webhook
deriving DecidableEq

/-- One transcription job record, from the TranscriptionJob dataclass in
app/transcription_service.py.  Timestamps are Nat ticks; duration is a Rat
standing for the Python float. -/
structure TranscriptionJob where
  id : String
  file_path : String
  language : String
  source : JobSource
  status : JobStatus := JobStatus.pending
  progress : Nat := 0
  error : Option String := none
  srt_path : Option String := none
  azure_job_id : Option String := none
  blob_name : Option String := none
  created_at : Nat := 0
  started_at : Option Nat := none
  completed_at : Option Nat := none
  segments_count : Nat := 0
  duration_seconds : Rat := 0
  media_refresh_status : Option (List (String × Bool)) := none
deriving DecidableEq

/-- One session record, from the TranscriptionSession dataclass in
app/transcription_service.py.  The jobs dict is an insertion-ordered
association list, matching Python dict semantics. -/
structure TranscriptionSession where
  id : String
  jobs : List (String × TranscriptionJob) := []
  skipped : List (String × String) := []
  created_at : Nat := 0
  source : JobSource := JobSource.ui
  notify_bazarr : Bool := true
deriving DecidableEq

/-- The process-wide class attribute TranscriptionService dot sessions:
an insertion-ordered mapping from session id to session. -/
abbrev Store := List (String × TranscriptionSession)

/-- Ordered association-list lookup, modelling Python dict get. -/
def assocFind {α : Type} : List (String × α) → String → Option α
  | [], _ => none
  | (k, v) :: rest, key => if k = key then some v else assocFind rest key

/-- Update the value stored under a key, leaving other entries and the
order unchanged; models in-place mutation of the object held in a dict. -/
def assocUpdate {α : Type} : List (String × α) → String → (α → α) → List (String × α)
  | [], _, _ => []
  | (k, v) :: rest, key, f =>
      if k = key then (k, f v) :: rest else (k, v) :: assocUpdate rest key f

/-- TranscriptionService.get_session. -/
def get_session (s : Store) (session_id : String) : Option TranscriptionSession :=
  assocFind s session_id

/-- TranscriptionService.get_job: session lookup, then job lookup. -/
def get_job (s : Store) (session_id job_id : String) : Option TranscriptionJob :=
  match get_session s session_id with
  | some sess => assocFind sess.jobs job_id
  | none => none

/-- Typed errors raised by the store operations; add_job and cancel_session
raise ValueError when the session does not exist. -/
inductive ServiceError
  | sessionNotFound (session_id : String)
deriving DecidableEq

/-- The keyword arguments accepted by update_job_status in the source calls.
An outer some means the keyword was passed; the inner value is what setattr
assigns (srt_path and media_refresh_status may be assigned none). -/
structure JobUpdate where
  error : Option String := none
  srt_path : Option (Option String) := none
  segments_count : Option Nat := none
  duration_seconds : Option Rat := none
  media_refresh_status : Option (Option (List (String × Bool))) := none

/-- Apply the keyword assignments of update_job_status, in source order,
before the status-specific timestamp stamping. -/
def applyUpdate (j : TranscriptionJob) (u : JobUpdate) : TranscriptionJob :=
  let j1 := match u.error with
    | some e => { j with error := some e }
    | none => j
  let j2 := match u.srt_path with
    | some v => { j1 with srt_path := v }
    | none => j1
  let j3 := match u.segments_count with
    | some v => { j2 with segments_count := v }
    | none => j2
  let j4 := match u.duration_seconds with
    | some v => { j3 with duration_seconds := v }
    | none => j3
  match u.media_refresh_status with
  | some v => { j4 with media_refresh_status := v }
  | none => j4

/-- Status-specific stamping done by update_job_status after the field
writes: started_at on transcribing, completed_at on completed and on
failed, and nothing for any other status (in particular not for
cancelled). -/
def stampStatus (status : JobStatus) (now : Nat) (j : TranscriptionJob) : TranscriptionJob :=
  match status with
  | JobStatus.transcribing => { j with started_at := some now }
  | JobStatus.completed => { j with completed_at := some now }
  | JobStatus.failed => { j with completed_at := some now }
  | _ => j

/-- TranscriptionService.update_job_status.  Returns the new store and
whether a failure-notifier task was spawned (the asyncio.create_task of
notify_failure, done exactly in the failed branch).  When the
(session_id, job_id) pair resolves to no job the call is a silent no-op. -/
def update_job_status (s : Store) (session_id job_id : String)
    (status : JobStatus) (u : JobUpdate) (now : Nat) : Store × Bool :=
  match get_job s session_id job_id with
  | none => (s, false)
  | some _ =>
      let f : TranscriptionJob → TranscriptionJob := fun j =>
        stampStatus status now (applyUpdate { j with status := status } u)
      (assocUpdate s session_id
        (fun sess => { sess with jobs := assocUpdate sess.jobs job_id f }),
       decide (status = JobStatus.failed))

/-- TranscriptionService.add_job: raises ValueError when the session is
missing, otherwise appends a fresh pending job (the generated uuid job id
is an explicit parameter). -/
def add_job (s : Store) (session_id file_path language : String)
    (source : JobSource) (new_job_id : String) (now : Nat) :
    Except ServiceError (Store × TranscriptionJob) :=
  match get_session s session_id with
  | none => Except.error (ServiceError.sessionNotFound session_id)
  | some _ =>
      let job : TranscriptionJob :=
        { id := new_job_id, file_path := file_path, language := language,
          source := source, created_at := now }
      Except.ok
        (assocUpdate s session_id
          (fun sess => { sess with jobs := sess.jobs ++ [(new_job_id, job)] }),
         job)

/-- Statuses that cancel_session acts on: pending, extracting, uploading,
transcribing (jobs not already completed, failed or cancelled). -/
def is_cancellable : JobStatus → Bool
  | JobStatus.pending => true
  | JobStatus.extracting => true
  | JobStatus.uploading => true
  | JobStatus.transcribing => true
  | _ => false

/-- Return value of cancel_session. -/
structure CancelResult where
  cancelled : Nat
  cleaned_blobs : Nat
  errors : List String
deriving DecidableEq

/-- The per-job loop body of cancel_session over the session jobs in
insertion order.  blobDel models await delete_blob (Except.ok r is a normal
return of r, Except.error e a raised exception e); transDel likewise models
await delete_transcription.  cleaned_blobs counts non-raising blob deletes;
raised exceptions are collected into errors. -/
def cancel_jobs (now : Nat) (blobDel : String → Except String Bool)
    (transDel : String → Except String Unit) :
    List (String × TranscriptionJob) →
    List (String × TranscriptionJob) × Nat × Nat × List String
  | [] => ([], 0, 0, [])
  | (k, j) :: rest =>
      if is_cancellable j.status then
        let j2 := { j with status := JobStatus.cancelled, completed_at := some now }
        let blobRes : Nat × List String :=
          match j.blob_name with
          | some b =>
              (match blobDel b with
               | Except.ok _ => (1, [])
               | Except.error e => (0, ["Failed to delete blob " ++ b ++ ": " ++ e]))
          | none => (0, [])
        let transErrs : List String :=
          match j.azure_job_id with
          | some a =>
              (match transDel a with
               | Except.ok _ => []
               | Except.error e => ["Failed to delete transcription " ++ a ++ ": " ++ e])
          | none => []
        let r := cancel_jobs now blobDel transDel rest
        ((k, j2) :: r.1, r.2.1 + 1, blobRes.1 + r.2.2.1, blobRes.2 ++ transErrs ++ r.2.2.2)
      else
        let r := cancel_jobs now blobDel transDel rest
        ((k, j) :: r.1, r.2.1, r.2.2.1, r.2.2.2)

/-- TranscriptionService.cancel_session: raises ValueError on a missing
session, otherwise walks the jobs as cancel_jobs does and reports counts
and collected errors. -/
def cancel_session (s : Store) (session_id : String) (now : Nat)
    (blobDel : String → Except String Bool)
    (transDel : String → Except String Unit) :
    Except ServiceError (Store × CancelResult) :=
  match get_session s session_id with
  | none => Except.error (ServiceError.sessionNotFound session_id)
  | some sess =>
      let r := cancel_jobs now blobDel transDel sess.jobs
      Except.ok
        (assocUpdate s session_id (fun s2 => { s2 with jobs := r.1 }),
         { cancelled := r.2.1, cleaned_blobs := r.2.2.1, errors := r.2.2.2 })

/-! Azure job status polling, from
TranscriptionService dot wait_for_transcription_with_logging. -/

/-- Azure transcription job status, from TranscriptionStatus in
app/azure_batch_transcriber.py. -/
inductive AzStatus
  | notStarted
  | running
  | succeeded
  | failedStatus (msg : Option String)
deriving DecidableEq

/-- Outcome of the polling loop.  The polls argument counts status requests
actually issued.  A timedOut outcome is raised by the source as an
Exception with message Transcription timed out; a failedStatus poll raises
the reported message (or Transcription failed when the service sent none);
a cancelled outcome is the typed TranscriptionCancelledError. -/
inductive WaitOutcome
  | succeededAfter (polls : Nat)
  | cancelledAfter (polls : Nat)
  | failedWith (msg : String) (polls : Nat)
  | timedOut (polls : Nat)
deriving DecidableEq

/-- The exception message carried by each raising wait outcome. -/
def waitErrorMessage : WaitOutcome → Option String
  | WaitOutcome.failedWith m _ => some m
  | WaitOutcome.timedOut _ => some "Transcription timed out"
  | _ => none

/-- Loop cap of the polling loop: max_polls = 360 (one hour at the default
ten-second interval). -/
def max_polls : Nat := 360

/-- One step of the while loop of wait_for_transcription_with_logging.
cancelledAt i tells whether job.status reads cancelled at the check that
precedes poll number i (cancellation is concurrent state, supplied as an
oracle); statusAt i is the status returned by poll number i.  The fuel is
max_polls minus the current poll_count, so running out of fuel is exactly
the loop exit that raises the timeout. -/
def wait_aux (cancelledAt : Nat → Bool) (statusAt : Nat → AzStatus) :
    Nat → Nat → WaitOutcome
  | poll_count, 0 => WaitOutcome.timedOut poll_count
  | poll_count, fuel + 1 =>
      if cancelledAt poll_count then WaitOutcome.cancelledAfter poll_count
      else
        match statusAt poll_count with
        | AzStatus.succeeded => WaitOutcome.succeededAfter (poll_count + 1)
        | AzStatus.failedStatus m =>
            WaitOutcome.failedWith (m.getD "Transcription failed") (poll_count + 1)
        | _ => wait_aux cancelledAt statusAt (poll_count + 1) fuel

/-- TranscriptionService dot wait_for_transcription_with_logging as a
function of the cancellation and status oracles. -/
def wait_for_transcription_with_logging (cancelledAt : Nat → Bool)
    (statusAt : Nat → AzStatus) : WaitOutcome :=
  wait_aux cancelledAt statusAt 0 max_polls

/-! The transcribe_file orchestrator pipeline, embedded as a trace-producing
function of an environment of external-call outcomes. -/

/-- How a transcribe_file run ends: a normal return of (result, job), the
silent (none, job) return after catching the typed cancellation, or a
re-raised exception after the job was marked failed. -/
inductive PipeExit
  | completedOk
  | cancelledReturn
  | raisedFailed (msg : String)
deriving DecidableEq

/-- Environment of a transcribe_file run: each field is the outcome of one
external interaction, in pipeline order.  Except.error models a raised
exception with the given message.  The three cancellation oracles model
reads of job.status at the three cancellation check points. -/
structure PipelineEnv where
  extract : Except String String
  cancelledBeforeUpload : Bool
  upload : Except String (String × String)
  cancelledBeforeCreate : Bool
  create : Except String String
  cancelledAtPoll : Nat → Bool
  statusAt : Nat → AzStatus
  save_srt : Bool := true
  saveOutcome : Except String String := Except.ok "/out.srt"
  deleteTransOutcome : Option String := none

/-- Trace of one transcribe_file run.  The attempted flags record whether
the run reached the corresponding cleanup call at all (best effort or not);
marked_failed and marked_completed record terminal update_job_status calls
made by the pipeline itself; notifier_spawned records the create_task of
notify_failure that update_job_status performs on the failed branch. -/
structure PipeTrace where
  exitKind : PipeExit
  blobSet : Bool
  azureIdSet : Bool
  blob_delete_attempted : Bool
  trans_delete_attempted : Bool
  audio_unlink_attempted : Bool
  marked_failed : Bool
  marked_completed : Bool
  notifier_spawned : Bool
deriving DecidableEq

/-- Exit kind of the inner try block of transcribe_file (the block whose
finally deletes the blob and unlinks the temp audio). -/
inductive InnerExit
  | ok
  | cancelledE
  | err (msg : String)
deriving DecidableEq

/-- Result of the inner try block of transcribe_file. -/
structure InnerOut where
  exit : InnerExit
  blobSet : Bool
  azureIdSet : Bool
  trans_delete_attempted : Bool
  marked_completed : Bool

/-- The inner try block of transcribe_file: upload, cancellation re-check,
create_transcription, the polling wait, subtitle save, media-server
refresh (best effort, absorbed), the completed transition, and the
success-path delete_transcription call.  Note that delete_transcription is
reached only after the completed transition; no other path of this block
attempts it. -/
def transcribe_file_inner (env : PipelineEnv) : InnerOut :=
  match env.upload with
  | Except.error e =>
      { exit := InnerExit.err e, blobSet := false, azureIdSet := false,
        trans_delete_attempted := false, marked_completed := false }
  | Except.ok _ =>
      if env.cancelledBeforeCreate then
        { exit := InnerExit.cancelledE, blobSet := true, azureIdSet := false,
          trans_delete_attempted := false, marked_completed := false }
      else
        match env.create with
        | Except.error e =>
            { exit := InnerExit.err e, blobSet := true, azureIdSet := false,
              trans_delete_attempted := false, marked_completed := false }
        | Except.ok _ =>
            match wait_for_transcription_with_logging env.cancelledAtPoll env.statusAt with
            | WaitOutcome.cancelledAfter _ =>
                { exit := InnerExit.cancelledE, blobSet := true, azureIdSet := true,
                  trans_delete_attempted := false, marked_completed := false }
            | WaitOutcome.failedWith m _ =>
                { exit := InnerExit.err m, blobSet := true, azureIdSet := true,
                  trans_delete_attempted := false, marked_completed := false }
            | WaitOutcome.timedOut _ =>
                { exit := InnerExit.err "Transcription timed out", blobSet := true,
                  azureIdSet := true, trans_delete_attempted := false,
                  marked_completed := false }
            | WaitOutcome.succeededAfter _ =>
                match (if env.save_srt then env.saveOutcome.map some else Except.ok none) with
                | Except.error e =>
                    { exit := InnerExit.err e, blobSet := true, azureIdSet := true,
                      trans_delete_attempted := false, marked_completed := false }
                | Except.ok _ =>
                    match env.deleteTransOutcome with
                    | some e =>
                        { exit := InnerExit.err e, blobSet := true, azureIdSet := true,
                          trans_delete_attempted := true, marked_completed := true }
                    | none =>
                        { exit := InnerExit.ok, blobSet := true, azureIdSet := true,
                          trans_delete_attempted := true, marked_completed := true }

/-- TranscriptionService.transcribe_file.  The first cancellation check
sits before the inner try block, so a cancellation observed there skips
the inner finally entirely: neither the blob delete nor the temp-audio
unlink is reached on that path.  The except branch for the typed
cancellation returns (none, job) without marking failed; every other
exception marks the job failed (spawning the notifier) and re-raises. -/
def transcribe_file (env : PipelineEnv) : PipeTrace :=
  match env.extract with
  | Except.error e =>
      { exitKind := PipeExit.raisedFailed e, blobSet := false, azureIdSet := false,
        blob_delete_attempted := false, trans_delete_attempted := false,
        audio_unlink_attempted := false, marked_failed := true,
        marked_completed := false, notifier_spawned := true }
  | Except.ok _ =>
      if env.cancelledBeforeUpload then
        { exitKind := PipeExit.cancelledReturn, blobSet := false, azureIdSet := false,
          blob_delete_attempted := false, trans_delete_attempted := false,
          audio_unlink_attempted := false, marked_failed := false,
          marked_completed := false, notifier_spawned := false }
      else
        let i := transcribe_file_inner env
        match i.exit with
        | InnerExit.ok =>
            { exitKind := PipeExit.completedOk, blobSet := i.blobSet,
              azureIdSet := i.azureIdSet, blob_delete_attempted := i.blobSet,
              trans_delete_attempted := i.trans_delete_attempted,
              audio_unlink_attempted := true, marked_failed := false,
              marked_completed := i.marked_completed, notifier_spawned := false }
        | InnerExit.cancelledE =>
            { exitKind := PipeExit.cancelledReturn, blobSet := i.blobSet,
              azureIdSet := i.azureIdSet, blob_delete_attempted := i.blobSet,
              trans_delete_attempted := i.trans_delete_attempted,
              audio_unlink_attempted := true, marked_failed := false,
              marked_completed := i.marked_completed, notifier_spawned := false }
        | InnerExit.err m =>
            { exitKind := PipeExit.raisedFailed m, blobSet := i.blobSet,
              azureIdSet := i.azureIdSet, blob_delete_attempted := i.blobSet,
              trans_delete_attempted := i.trans_delete_attempted,
              audio_unlink_attempted := true, marked_failed := true,
              marked_completed := i.marked_completed, notifier_spawned := true }

/-! The transcribe_audio_data pipeline (the Bazarr ASR entry point). -/

/-- Environment of a transcribe_audio_data run.  Its wait loop reads the
same concurrent job.status, so cancellation is again an oracle per poll;
there are no pre-upload or pre-create cancellation checks in this
pipeline. -/
structure AudioEnv where
  convert : Except String Unit
  upload : Except String (String × String)
  create : Except String String
  cancelledAtPoll : Nat → Bool
  statusAt : Nat → AzStatus

/-- Trace of one transcribe_audio_data run.  observed_cancellation records
that the typed TranscriptionCancelledError was raised by the wait loop;
this pipeline has no except branch for it, so the generic handler marks
the job failed and spawns the notifier. -/
structure AudioTrace where
  exitKind : PipeExit
  blobSet : Bool
  azureIdSet : Bool
  blob_delete_attempted : Bool
  trans_delete_attempted : Bool
  temp_dir_removed : Bool
  marked_failed : Bool
  marked_completed : Bool
  notifier_spawned : Bool
  observed_cancellation : Bool
deriving DecidableEq

/-- TranscriptionService.transcribe_audio_data.  The inner finally deletes
the blob when blob_name is set and deletes the Azure transcription when
azure_job_id is set, on every exit of the inner block; the outer finally
always removes the temp directory; the single except branch catches every
exception, including the typed cancellation, marks the job failed and
re-raises. -/
def transcribe_audio_data (env : AudioEnv) : AudioTrace :=
  match env.convert with
  | Except.error e =>
      { exitKind := PipeExit.raisedFailed e, blobSet := false, azureIdSet := false,
        blob_delete_attempted := false, trans_delete_attempted := false,
        temp_dir_removed := true, marked_failed := true, marked_completed := false,
        notifier_spawned := true, observed_cancellation := false }
  | Except.ok _ =>
      match env.upload with
      | Except.error e =>
          { exitKind := PipeExit.raisedFailed e, blobSet := false, azureIdSet := false,
            blob_delete_attempted := false, trans_delete_attempted := false,
            temp_dir_removed := true, marked_failed := true, marked_completed := false,
            notifier_spawned := true, observed_cancellation := false }
      | Except.ok _ =>
          match env.create with
          | Except.error e =>
              { exitKind := PipeExit.raisedFailed e, blobSet := true, azureIdSet := false,
                blob_delete_attempted := true, trans_delete_attempted := false,
                temp_dir_removed := true, marked_failed := true, marked_completed := false,
                notifier_spawned := true, observed_cancellation := false }
          | Except.ok _ =>
              match wait_for_transcription_with_logging env.cancelledAtPoll env.statusAt with
              | WaitOutcome.cancelledAfter _ =>
                  { exitKind := PipeExit.raisedFailed "Transcription was cancelled",
                    blobSet := true, azureIdSet := true, blob_delete_attempted := true,
                    trans_delete_attempted := true, temp_dir_removed := true,
                    marked_failed := true, marked_completed := false,
                    notifier_spawned := true, observed_cancellation := true }
              | WaitOutcome.failedWith m _ =>
                  { exitKind := PipeExit.raisedFailed m, blobSet := true,
                    azureIdSet := true, blob_delete_attempted := true,
                    trans_delete_attempted := true, temp_dir_removed := true,
                    marked_failed := true, marked_completed := false,
                    notifier_spawned := true, observed_cancellation := false }
              | WaitOutcome.timedOut _ =>
                  { exitKind := PipeExit.raisedFailed "Transcription timed out",
                    blobSet := true, azureIdSet := true, blob_delete_attempted := true,
                    trans_delete_attempted := true, temp_dir_removed := true,
                    marked_failed := true, marked_completed := false,
                    notifier_spawned := true, observed_cancellation := false }
              | WaitOutcome.succeededAfter _ =>
                  { exitKind := PipeExit.completedOk, blobSet := true,
                    azureIdSet := true, blob_delete_attempted := true,
                    trans_delete_attempted := true, temp_dir_removed := true,
                    marked_failed := false, marked_completed := true,
                    notifier_spawned := false, observed_cancellation := false }

/-! Blob upload with retry, from upload_audio in
app/utils/azure_batch_transcriber.py, and the single-attempt upload_audio
of the top-level app/azure_batch_transcriber.py (the module that
TranscriptionService imports). -/

/-- Outcome of one upload_blob attempt.  transientErr stands for a raised
exception of one of the caught kinds (AzureError, TimeoutError,
ConnectionError, OSError); fatalErr stands for any other raised
exception, which the except clause does not match. -/
inductive AttemptOutcome
  | success
  | transientErr (msg : String)
  | fatalErr (msg : String)
deriving DecidableEq

/-- How an upload call ends. -/
inductive UploadResultKind
  | ok
  | raisedTransient (msg : String)
  | raisedFatal (msg : String)
deriving DecidableEq

/-- Trace of an upload call: number of attempts made, the backoff sleeps
performed in seconds, and the final result. -/
structure UploadTrace where
  attempts : Nat
  sleeps : List Nat
  result : UploadResultKind
deriving DecidableEq

/-- Retry cap of the utils upload_audio: max_retries = 3. -/
def max_retries : Nat := 3

/-- The for-attempt loop of the utils upload_audio.  The oracle gives the
outcome of each attempt (numbered from 1).  A caught exception sleeps
2 to the power attempt seconds and retries while attempt is less than
max_retries, and re-raises on the last attempt; an uncaught exception
propagates at once.  The fuel equals the remaining loop iterations; the
fuel-exhausted branch is the unreachable normal fall-through of the for
loop. -/
def upload_attempt_loop (oc : Nat → AttemptOutcome) : Nat → Nat → UploadTrace
  | attempt, 0 => { attempts := attempt - 1, sleeps := [], result := UploadResultKind.ok }
  | attempt, fuel + 1 =>
      match oc attempt with
      | AttemptOutcome.success =>
          { attempts := attempt, sleeps := [], result := UploadResultKind.ok }
      | AttemptOutcome.fatalErr m =>
          { attempts := attempt, sleeps := [], result := UploadResultKind.raisedFatal m }
      | AttemptOutcome.transientErr m =>
          if attempt < max_retries then
            let t := upload_attempt_loop oc (attempt + 1) fuel
            { attempts := t.attempts, sleeps := 2 ^ attempt :: t.sleeps,
              result := t.result }
          else
            { attempts := attempt, sleeps := [],
              result := UploadResultKind.raisedTransient m }

/-- upload_audio of app/utils/azure_batch_transcriber.py, reduced to its
attempt/backoff behaviour. -/
def upload_audio_with_retry (oc : Nat → AttemptOutcome) : UploadTrace :=
  upload_attempt_loop oc 1 max_retries

/-- upload_audio of the top-level app/azure_batch_transcriber.py: a single
upload_blob call with no retry logic at all; any exception propagates. -/
def upload_audio_single (oc : Nat → AttemptOutcome) : UploadTrace :=
  match oc 1 with
  | AttemptOutcome.success => { attempts := 1, sleeps := [], result := UploadResultKind.ok }
  | AttemptOutcome.transientErr m =>
      { attempts := 1, sleeps := [], result := UploadResultKind.raisedTransient m }
  | AttemptOutcome.fatalErr m =>
      { attempts := 1, sleeps := [], result := UploadResultKind.raisedFatal m }

/-! Result parsing, from get_transcription_result in both transcriber
modules. -/

/-- One entry of the nBest list of a recognized phrase. -/
structure NBestEntry where
  display : String
  confidence : Rat := 0
deriving DecidableEq

/-- One recognized phrase of the downloaded result JSON.  locale is some
value exactly when the key is present in the phrase object. -/
structure RecognizedPhrase where
  offsetInTicks : Nat := 0
  durationInTicks : Nat := 0
  locale : Option String := none
  nBest : List NBestEntry := []
deriving DecidableEq

/-- One parsed segment (TranscriptionSegment). -/
structure SegmentModel where
  start : Rat
  endTime : Rat
  text : String
  confidence : Rat
deriving DecidableEq

/-- The TranscriptionResult dataclass. -/
structure ResultModel where
  job_id : String
  language : String
  segments : List SegmentModel
  duration : Rat
deriving DecidableEq

/-- Tick conversion: one tick is 100 nanoseconds, so seconds are ticks
divided by ten million. -/
def ticksToSeconds (t : Nat) : Rat := (t : Rat) / 10000000

/-- The phrase loop shared by both get_transcription_result versions:
builds segments (skipping empty display text) and folds duration as the
running max of segment end times. -/
def parse_phrases : List RecognizedPhrase → List SegmentModel × Rat
  | [] => ([], 0)
  | p :: ps =>
      let startSec := ticksToSeconds p.offsetInTicks
      let endSec := startSec + ticksToSeconds p.durationInTicks
      let best : String × Rat :=
        match p.nBest with
        | nb :: _ => (nb.display, nb.confidence)
        | [] => ("", 0)
      let r := parse_phrases ps
      ((if best.1 = "" then r.1
        else { start := startSec, endTime := endSec, text := best.1,
               confidence := best.2 } :: r.1),
       max endSec r.2)

/-- The detected-locale scan of the utils get_transcription_result: the
locale of the first phrase that carries one, in iteration order. -/
def detected_locale : List RecognizedPhrase → Option String
  | [] => none
  | p :: ps =>
      match p.locale with
      | some l => some l
      | none => detected_locale ps

/-- get_transcription_result of the top-level app/azure_batch_transcriber.py
(the module imported by TranscriptionService): the result language is
always the locale of the remote job; phrase locales are never read. -/
def get_transcription_result_app (job_id job_locale : String)
    (phrases : List RecognizedPhrase) : ResultModel :=
  { job_id := job_id, language := job_locale,
    segments := (parse_phrases phrases).1, duration := (parse_phrases phrases).2 }

/-- get_transcription_result of app/utils/azure_batch_transcriber.py: the
detected locale of the first phrase carrying one wins; the job locale is
the fallback when no phrase carries a locale. -/
def get_transcription_result_utils (job_id job_locale : String)
    (phrases : List RecognizedPhrase) : ResultModel :=
  { job_id := job_id, language := (detected_locale phrases).getD job_locale,
    segments := (parse_phrases phrases).1, duration := (parse_phrases phrases).2 }

/-! The skip engine, from app/skip_checker.py.  Language tags are the
lowercased ffprobe tags (empty string when absent).  The helper module
app/language_code.py is imported by the source but absent from the
repository snapshot, so LanguageCode-based equality of two tags is an
oracle parameter langMatch; the direct string comparisons of the source
are kept explicit. -/

/-- One audio stream as reported by get_stream_info. -/
structure AudioStreamInfo where
  index : Nat := 0
  codec : String := ""
  language : String := ""
  channels : Nat := 2
deriving DecidableEq

/-- One subtitle stream as reported by get_stream_info. -/
structure SubtitleStreamInfo where
  index : Nat := 0
  codec : String := ""
  language : String := ""
  title : String := ""
deriving DecidableEq

/-- One external subtitle file as reported by find_external_subtitles:
the extracted language token (the string unknown when none was found) and
whether the dotted subgen marker is present. -/
structure ExternalSub where
  language : String
  is_subgen : Bool
deriving DecidableEq

/-- The observable inputs of one should_skip_file call: existence of the
media file, the ffprobe streams, the directory scan for external
subtitles, and the two facts the preferred-audio check reads (their
computation lives in audio_extractor and language_code, the latter absent
from the snapshot). -/
structure MediaFileModel where
  fileExists : Bool := true
  audio : List AudioStreamInfo := []
  subtitle : List SubtitleStreamInfo := []
  externalSubs : List ExternalSub := []
  hasAudioTracks : Bool := true
  hasPreferredAudio : Bool := true
deriving DecidableEq

/-- The SkipConfig dataclass of app/config.py together with the two
transcription settings read at the end of should_skip_file.
internal_subtitle_language is the stripped-nonempty property; the two
skip lists are the parsed pipe-separated lists. -/
structure SkipConfig where
  skip_if_target_subtitles_exist : Bool := true
  skip_if_external_subtitles_exist : Bool := false
  skip_only_subgen_subtitles : Bool := false
  internal_subtitle_language : Option String := none
  audio_language_skip_list : List String := []
  subtitle_languages_skip_list : List String := []
  skip_unknown_language : Bool := false
  skip_if_no_language_but_subtitles_exist : Bool := false
  limit_to_preferred_audio_languages : Bool := false
  preferred_audio_languages_list : List String := []
deriving DecidableEq

/-- The reason attached to a skip decision; each constructor stands for
one reason string produced by should_skip_file. -/
inductive SkipReason
  | fileNotFound
  | targetSubtitleExists (language : String)
  | externalSubtitlesExist
  | internalSubtitlesExist (language : String)
  | audioLanguageInSkipList
  | subtitleInSkipListLanguage (language : String)
  | unknownAudioLanguage
  | noAudioLanguageButSubtitlesExist
  | noPreferredAudioTrack
deriving DecidableEq

/-- The SkipResult dataclass: skip with a reason, or proceed. -/
inductive SkipDecision
  | skip (reason : SkipReason)
  | proceed
deriving DecidableEq

/-- has_external_subtitle_for_language: scans the found external
subtitles, honouring the only-subgen filter, matching through the
language registry (the langMatch oracle) with lowercased direct string
equality as the fallback. -/
def has_external_subtitle_for_language (langMatch : String → String → Bool)
    (subs : List ExternalSub) (language : String) (only_subgen : Bool) : Bool :=
  subs.any fun sub =>
    (!only_subgen || sub.is_subgen) &&
    (langMatch sub.language language || sub.language.toLower == language.toLower)

/-- has_any_external_subtitle. -/
def has_any_external_subtitle (subs : List ExternalSub) (only_subgen : Bool) : Bool :=
  if only_subgen then subs.any (fun sub => sub.is_subgen) else !subs.isEmpty

/-- get_internal_subtitle_languages: the nonempty subtitle stream tags. -/
def get_internal_subtitle_languages (subtitle : List SubtitleStreamInfo) : List String :=
  (subtitle.filter (fun st => st.language ≠ "")).map (fun st => st.language)

/-- has_internal_subtitle_for_language: registry matching over the
internal tags, then the direct membership fallback on the lowercased
target. -/
def has_internal_subtitle_for_language (langMatch : String → String → Bool)
    (subtitle : List SubtitleStreamInfo) (language : String) : Bool :=
  let internal := get_internal_subtitle_languages subtitle
  internal.any (fun l => langMatch l language) || internal.contains language.toLower

/-- get_audio_languages: the nonempty audio stream tags. -/
def get_audio_languages (audio : List AudioStreamInfo) : List String :=
  (audio.filter (fun st => st.language ≠ "")).map (fun st => st.language)

/-- audio_matches_skip_languages: direct membership first, then registry
matching of each audio tag against each skip-list entry. -/
def audio_matches_skip_languages (langMatch : String → String → Bool)
    (audio : List AudioStreamInfo) (skip_languages : List String) : Bool :=
  if skip_languages.isEmpty then false
  else
    (get_audio_languages audio).any fun al =>
      skip_languages.contains al || skip_languages.any (fun sl => langMatch al sl)

/-- get_all_subtitle_languages: internal tags plus the lowercased external
tokens other than unknown, deduplicated (the source builds a Python set;
first-occurrence order is chosen here). -/
def get_all_subtitle_languages (media : MediaFileModel) : List String :=
  (get_internal_subtitle_languages media.subtitle ++
    ((media.externalSubs.filter
        (fun e => e.language ≠ "" && e.language ≠ "unknown")).map
      (fun e => e.language.toLower))).dedup

/-- The inner scan of subtitle_matches_skip_languages: the first subtitle
language with a direct hit yields itself, otherwise the first skip-list
entry the registry matches it with. -/
def subtitle_match_scan (langMatch : String → String → Bool)
    (skip_languages : List String) : List String → Option String
  | [] => none
  | l :: rest =>
      if skip_languages.contains l then some l
      else
        match skip_languages.find? (fun sl => langMatch l sl) with
        | some sl => some sl
        | none => subtitle_match_scan langMatch skip_languages rest

/-- subtitle_matches_skip_languages. -/
def subtitle_matches_skip_languages (langMatch : String → String → Bool)
    (all_subtitle_langs skip_languages : List String) : Option String :=
  if skip_languages.isEmpty then none
  else subtitle_match_scan langMatch skip_languages all_subtitle_langs

/-- The unknown-audio test of step 3d of should_skip_file: some audio
stream whose tag is missing, und or unknown. -/
def has_unknown_audio (audio : List AudioStreamInfo) : Bool :=
  audio.any fun st => st.language = "" || st.language = "und" || st.language = "unknown"

/-- The has-language test of step 3e: some audio stream with a real tag. -/
def has_audio_language (audio : List AudioStreamInfo) : Bool :=
  audio.any fun st =>
    !(st.language = "" || st.language = "und" || st.language = "unknown")

/-- should_skip_file of app/skip_checker.py.  The stream-based checks 3a
through 3e run only under needs_stream_info, which is computed from the
internal-subtitle language and the two skip lists alone: the
skip_unknown_language and skip_if_no_language_but_subtitles_exist flags do
not cause the stream probe. -/
def should_skip_file (langMatch : String → String → Bool)
    (media : MediaFileModel) (target_language : String) (cfg : SkipConfig) :
    SkipDecision :=
  if !media.fileExists then SkipDecision.skip SkipReason.fileNotFound
  else if cfg.skip_if_target_subtitles_exist &&
      has_external_subtitle_for_language langMatch media.externalSubs
        target_language cfg.skip_only_subgen_subtitles then
    SkipDecision.skip (SkipReason.targetSubtitleExists target_language)
  else if cfg.skip_if_external_subtitles_exist &&
      has_any_external_subtitle media.externalSubs cfg.skip_only_subgen_subtitles then
    SkipDecision.skip SkipReason.externalSubtitlesExist
  else
    let needs_stream_info := cfg.internal_subtitle_language.isSome ||
      !cfg.audio_language_skip_list.isEmpty ||
      !cfg.subtitle_languages_skip_list.isEmpty
    let streamDecision : SkipDecision :=
      if needs_stream_info then
        if (match cfg.internal_subtitle_language with
            | some il => has_internal_subtitle_for_language langMatch media.subtitle il
            | none => false) then
          SkipDecision.skip
            (SkipReason.internalSubtitlesExist
              (cfg.internal_subtitle_language.getD ""))
        else if !cfg.audio_language_skip_list.isEmpty &&
            audio_matches_skip_languages langMatch media.audio
              cfg.audio_language_skip_list then
          SkipDecision.skip SkipReason.audioLanguageInSkipList
        else if !cfg.subtitle_languages_skip_list.isEmpty then
          match subtitle_matches_skip_languages langMatch
              (get_all_subtitle_languages media) cfg.subtitle_languages_skip_list with
          | some l => SkipDecision.skip (SkipReason.subtitleInSkipListLanguage l)
          | none =>
              if cfg.skip_unknown_language && has_unknown_audio media.audio then
                SkipDecision.skip SkipReason.unknownAudioLanguage
              else if cfg.skip_if_no_language_but_subtitles_exist &&
                  !has_audio_language media.audio &&
                  (!media.subtitle.isEmpty || !media.externalSubs.isEmpty) then
                SkipDecision.skip SkipReason.noAudioLanguageButSubtitlesExist
              else SkipDecision.proceed
        else if cfg.skip_unknown_language && has_unknown_audio media.audio then
          SkipDecision.skip SkipReason.unknownAudioLanguage
        else if cfg.skip_if_no_language_but_subtitles_exist &&
            !has_audio_language media.audio &&
            (!media.subtitle.isEmpty || !media.externalSubs.isEmpty) then
          SkipDecision.skip SkipReason.noAudioLanguageButSubtitlesExist
        else SkipDecision.proceed
      else SkipDecision.proceed
    match streamDecision with
    | SkipDecision.skip r => SkipDecision.skip r
    | SkipDecision.proceed =>
        if cfg.limit_to_preferred_audio_languages &&
            !cfg.preferred_audio_languages_list.isEmpty &&
            media.hasAudioTracks && !media.hasPreferredAudio then
          SkipDecision.skip SkipReason.noPreferredAudioTrack
        else SkipDecision.proceed

/-! The global transcription gate.  Modelled from the spec: the
acquire_transcription_slot and release_transcription_slot operations and
the class attributes transcription_semaphore, priority_waiters and
normal_waiters of TranscriptionService are exercised by
tests/test_transcription_service.py but their definitions are not part of
the repository snapshot; section 5 of the specification describes a
counting semaphore of default capacity 50 with a priority wait queue and a
normal wait queue, the priority queue being served first on release. -/

/-- Modelled from the spec: the state of the process-wide transcription
gate.  running holds the identities of pipelines currently holding a
permit; the two waiter lists are FIFO queues. -/
structure TranscriptionGate where
  capacity : Nat
  running : List Nat
  priority_waiters : List Nat
  normal_waiters : List Nat
deriving DecidableEq

/-- Modelled from the spec: the gate as lazily initialised, with the
default capacity of 50 and no running pipelines or waiters. -/
def initGate : TranscriptionGate :=
  { capacity := 50, running := [], priority_waiters := [], normal_waiters := [] }

/-- Modelled from the spec: acquire_transcription_slot.  A free permit
starts the pipeline at once; otherwise the caller joins the priority or
the normal queue. -/
def acquire_transcription_slot (g : TranscriptionGate) (idn : Nat)
    (priority : Bool) : TranscriptionGate :=
  if g.running.length < g.capacity then { g with running := idn :: g.running }
  else if priority then { g with priority_waiters := g.priority_waiters ++ [idn] }
  else { g with normal_waiters := g.normal_waiters ++ [idn] }

/-- Modelled from the spec: release_transcription_slot.  The releasing
pipeline leaves running; the permit is handed to the head of the priority
queue if any, else to the head of the normal queue, else the permit count
increments (running simply shrinks). -/
def release_transcription_slot (g : TranscriptionGate) (idn : Nat) :
    TranscriptionGate :=
  let g1 := { g with running := g.running.erase idn }
  match g1.priority_waiters with
  | w :: rest => { g1 with priority_waiters := rest, running := w :: g1.running }
  | [] =>
      match g1.normal_waiters with
      | w :: rest => { g1 with normal_waiters := rest, running := w :: g1.running }
      | [] => g1

/-- Gate states reachable from the freshly initialised gate by acquire and
release steps; a release is performed by a pipeline that holds a permit. -/
inductive GateReachable : TranscriptionGate → Prop
  | init : GateReachable initGate
  | acquire {g : TranscriptionGate} (idn : Nat) (priority : Bool) :
      GateReachable g → GateReachable (acquire_transcription_slot g idn priority)
  | release {g : TranscriptionGate} (idn : Nat) :
      GateReachable g → idn ∈ g.running →
      GateReachable (release_transcription_slot g idn)

/-! Helper lemmas about the association-list store. -/

theorem assocFind_assocUpdate {α : Type} (l : List (String × α)) (k : String)
    (f : α → α) : assocFind (assocUpdate l k f) k = (assocFind l k).map f := by
  induction l with
  | nil => rfl
  | cons hd tl ih =>
      obtain ⟨k2, v⟩ := hd
      by_cases h : k2 = k
      · simp [assocUpdate, assocFind, h]
      · simp [assocUpdate, assocFind, h, ih]

theorem assocUpdate_eq_self {α : Type} (l : List (String × α)) (k : String)
    (f : α → α) (h : ∀ v, assocFind l k = some v → f v = v) :
    assocUpdate l k f = l := by
  induction l with
  | nil => rfl
  | cons hd tl ih =>
      obtain ⟨k2, v⟩ := hd
      by_cases hk : k2 = k
      · have hv : f v = v := h v (by simp [assocFind, hk])
        simp [assocUpdate, hk, hv]
      · have : ∀ v2, assocFind tl k = some v2 → f v2 = v2 := by
          intro v2 hv2
          exact h v2 (by simp [assocFind, hk, hv2])
        simp [assocUpdate, hk, ih this]

theorem applyUpdate_completed_at (j : TranscriptionJob) (u : JobUpdate) :
    (applyUpdate j u).completed_at = j.completed_at := by
  obtain ⟨e, sp, sc, ds, mr⟩ := u
  unfold applyUpdate
  cases e <;> cases sp <;> cases sc <;> cases ds <;> cases mr <;> rfl

theorem get_job_update_job_status (s : Store) (sid jid : String)
    (st : JobStatus) (u : JobUpdate) (now : Nat) (j : TranscriptionJob)
    (h : get_job s sid jid = some j) :
    get_job (update_job_status s sid jid st u now).1 sid jid =
      some (stampStatus st now (applyUpdate { j with status := st } u)) := by
  unfold update_job_status
  rw [h]
  unfold get_job get_session at h ⊢
  cases hs : assocFind s sid with
  | none => rw [hs] at h; exact absurd h (by simp)
  | some sess =>
      rw [hs] at h
      simp only [assocFind_assocUpdate, hs, Option.map_some']
      simp only [] at h
      rw [h]
      rfl

/-- C10: update_job_status on a (session, job) pair that names no existing
job returns without raising and leaves the store unchanged (and spawns no
notifier), while add_job on a missing session raises ValueError. -/
theorem C10_missing_job_update_is_noop (s : Store) (sid jid : String)
    (st : JobStatus) (u : JobUpdate) (now : Nat)
    (fp lang : String) (src : JobSource) (new_job_id : String) (anow : Nat)
    (h : get_job s sid jid = none) :
    update_job_status s sid jid st u now = (s, false) ∧
    (get_session s sid = none →
      add_job s sid fp lang src new_job_id anow =
        Except.error (ServiceError.sessionNotFound sid)) := by
  constructor
  · unfold update_job_status
    rw [h]
  · intro h2
    unfold add_job
    rw [h2]

/-- Witness for C10 at the empty store. -/
theorem C10_missing_job_update_is_noop_witness :
    update_job_status [] "s1" "j1" JobStatus.completed {} 0 = ([], false) ∧
    add_job [] "s1" "/media/movie.mkv" "en" JobSource.ui "j2" 0 =
      Except.error (ServiceError.sessionNotFound "s1") := by
  have h := C10_missing_job_update_is_noop [] "s1" "j1" JobStatus.completed {} 0
    "/media/movie.mkv" "en" JobSource.ui "j2" 0 rfl
  exact ⟨h.1, h.2 rfl⟩

/-! C4: stamping of completed_at. -/

def jobC4 : TranscriptionJob :=
  { id := "j1", file_path := "/media/movie.mkv", language := "en",
    source := JobSource.ui, status := JobStatus.transcribing }

def storeC4 : Store := [("s1", { id := "s1", jobs := [("j1", jobC4)] })]

/-- C4 counterexample: updating an existing job to cancelled (a terminal
state) through update_job_status does not stamp completed_at, refuting the
claim that every terminal state is stamped. -/
theorem C4_cancelled_not_stamped_counterexample :
    (get_job (update_job_status storeC4 "s1" "j1" JobStatus.cancelled {} 7).1
        "s1" "j1").map (fun j => (j.status, j.completed_at)) =
      some (JobStatus.cancelled, none) := by
  rfl

/-- C4 amended: update_job_status stamps completed_at exactly on entry to
completed and to failed; an update to cancelled leaves completed_at as it
was (cancel_session stamps completed_at itself, outside update_job_status). -/
theorem C4_completed_at_stamping (s : Store) (sid jid : String)
    (u : JobUpdate) (now : Nat) (j : TranscriptionJob) (st : JobStatus)
    (h : get_job s sid jid = some j) :
    ((st = JobStatus.completed ∨ st = JobStatus.failed) →
      (get_job (update_job_status s sid jid st u now).1 sid jid).map
          TranscriptionJob.completed_at = some (some now)) ∧
    (st = JobStatus.cancelled →
      (get_job (update_job_status s sid jid st u now).1 sid jid).map
          TranscriptionJob.completed_at = some j.completed_at) := by
  have hg := get_job_update_job_status s sid jid st u now j h
  constructor
  · intro hst
    rw [hg]
    rcases hst with hst | hst <;> subst hst <;>
      simp [stampStatus]
  · intro hst
    subst hst
    rw [hg]
    simp [stampStatus, applyUpdate_completed_at]

/-- Witness for C4 at a concrete store: entering completed stamps the
timestamp. -/
theorem C4_completed_at_stamping_witness :
    (get_job (update_job_status storeC4 "s1" "j1" JobStatus.completed {} 9).1
        "s1" "j1").map TranscriptionJob.completed_at = some (some 9) := by
  exact (C4_completed_at_stamping storeC4 "s1" "j1" {} 9 jobC4
    JobStatus.completed rfl).1 (Or.inl rfl)

/-! C9: double cancellation. -/

theorem cancel_jobs_idem (n1 n2 : Nat) (bd1 bd2 : String → Except String Bool)
    (td1 td2 : String → Except String Unit)
    (l : List (String × TranscriptionJob)) :
    cancel_jobs n2 bd2 td2 (cancel_jobs n1 bd1 td1 l).1 =
      ((cancel_jobs n1 bd1 td1 l).1, 0, 0, []) := by
  induction l with
  | nil => rfl
  | cons hd tl ih =>
      obtain ⟨k, j⟩ := hd
      by_cases h : is_cancellable j.status = true
      · simp only [cancel_jobs, h, if_true]
        simp only [cancel_jobs, is_cancellable, Bool.false_eq_true, if_false, ih]
      · have h2 : is_cancellable j.status = false := by
          cases hb : is_cancellable j.status
          · rfl
          · exact absurd hb h
        simp only [cancel_jobs, h2, Bool.false_eq_true, if_false]
        simp only [cancel_jobs, h2, Bool.false_eq_true, if_false, ih]

/-- C9: cancelling a session a second time, with no interleaving job
activity, leaves the store exactly as the first cancellation left it and
reports cancelled = 0 (with no blob cleanups and no errors); only the
first call can report a positive cancelled count. -/
theorem C9_cancel_session_idempotent (s : Store) (sid : String)
    (n1 n2 : Nat) (bd1 bd2 : String → Except String Bool)
    (td1 td2 : String → Except String Unit)
    (s1 : Store) (r1 : CancelResult)
    (h : cancel_session s sid n1 bd1 td1 = Except.ok (s1, r1)) :
    cancel_session s1 sid n2 bd2 td2 =
      Except.ok (s1, { cancelled := 0, cleaned_blobs := 0, errors := [] }) := by
  unfold cancel_session at h ⊢
  cases hs : get_session s sid with
  | none => rw [hs] at h; exact absurd h (by simp)
  | some sess =>
      rw [hs] at h
      simp only [Except.ok.injEq, Prod.mk.injEq] at h
      obtain ⟨hstore, _⟩ := h
      have hsess1 : get_session s1 sid =
          some { sess with jobs := (cancel_jobs n1 bd1 td1 sess.jobs).1 } := by
        rw [← hstore]
        unfold get_session at hs ⊢
        rw [assocFind_assocUpdate, hs]
        rfl
      rw [hsess1]
      simp only [cancel_jobs_idem]
      have hfix : assocUpdate s1 sid
          (fun s2 => { s2 with jobs := (cancel_jobs n1 bd1 td1 sess.jobs).1 }) = s1 := by
        apply assocUpdate_eq_self
        intro v hv
        have hveq : v = { sess with jobs := (cancel_jobs n1 bd1 td1 sess.jobs).1 } := by
          have h2 := hsess1
          unfold get_session at h2
          rw [hv] at h2
          exact Option.some_injective _ h2
        subst hveq
        rfl
      rw [hfix]

def bdOk : String → Except String Bool := fun _ => Except.ok true

def tdOk : String → Except String Unit := fun _ => Except.ok ()

def jobC9 : TranscriptionJob :=
  { id := "j1", file_path := "/media/show.mkv", language := "en",
    source := JobSource.ui }

def storeC9 : Store := [("s1", { id := "s1", jobs := [("j1", jobC9)] })]

def jobC9after : TranscriptionJob :=
  { jobC9 with status := JobStatus.cancelled, completed_at := some 3 }

def storeC9after : Store := [("s1", { id := "s1", jobs := [("j1", jobC9after)] })]

/-- Witness for C9: a concrete first cancellation reports one cancelled
job, and the second call returns the identical store with a zero count. -/
theorem C9_cancel_session_idempotent_witness :
    cancel_session storeC9 "s1" 3 bdOk tdOk =
      Except.ok (storeC9after, { cancelled := 1, cleaned_blobs := 0, errors := [] }) ∧
    cancel_session storeC9after "s1" 9 bdOk tdOk =
      Except.ok (storeC9after, { cancelled := 0, cleaned_blobs := 0, errors := [] }) := by
  have h1 : cancel_session storeC9 "s1" 3 bdOk tdOk =
      Except.ok (storeC9after, { cancelled := 1, cleaned_blobs := 0, errors := [] }) := by
    rfl
  exact ⟨h1, C9_cancel_session_idempotent storeC9 "s1" 3 9 bdOk bdOk tdOk tdOk
    storeC9after { cancelled := 1, cleaned_blobs := 0, errors := [] } h1⟩

/-! C8: the polling loop fails fast on a Failed status and times out after
the 360-poll cap. -/

theorem wait_aux_step (c : Nat → Bool) (st : Nat → AzStatus) (pc fuel : Nat)
    (hc : c pc = false)
    (hst : st pc = AzStatus.running ∨ st pc = AzStatus.notStarted) :
    wait_aux c st pc (fuel + 1) = wait_aux c st (pc + 1) fuel := by
  rcases hst with h | h <;> simp [wait_aux, hc, h]

theorem wait_aux_skip (c : Nat → Bool) (st : Nat → AzStatus) :
    ∀ (k pc fuel : Nat),
      (∀ i, i < k → c (pc + i) = false ∧
        (st (pc + i) = AzStatus.running ∨ st (pc + i) = AzStatus.notStarted)) →
      wait_aux c st pc (k + fuel) = wait_aux c st (pc + k) fuel := by
  intro k
  induction k with
  | zero => intro pc fuel _; rw [Nat.zero_add, Nat.add_zero]
  | succ k ih =>
      intro pc fuel hyp
      have h0 := hyp 0 (Nat.succ_pos k)
      rw [show k + 1 + fuel = (k + fuel) + 1 by omega]
      rw [wait_aux_step c st pc (k + fuel) (by simpa using h0.1) (by simpa using h0.2)]
      rw [ih (pc + 1) fuel (by
        intro i hi
        have := hyp (i + 1) (by omega)
        constructor
        · rw [show pc + 1 + i = pc + (i + 1) by omega]; exact this.1
        · rw [show pc + 1 + i = pc + (i + 1) by omega]; exact this.2)]
      rw [show pc + 1 + k = pc + (k + 1) by omega]

/-- C8: in the wait loop, a poll that reports Failed fails the job at once
with the reported error message and no further poll is issued (the loop
ends at poll k + 1); and a loop whose polls never report a terminal status
issues exactly the 360-poll cap and fails with Transcription timed out. -/
theorem C8_poll_loop_failure_and_timeout :
    (∀ (c : Nat → Bool) (st : Nat → AzStatus) (k : Nat) (m : String),
      k < max_polls →
      (∀ i, i < k → c i = false ∧
        (st i = AzStatus.running ∨ st i = AzStatus.notStarted)) →
      c k = false → st k = AzStatus.failedStatus (some m) →
      wait_for_transcription_with_logging c st = WaitOutcome.failedWith m (k + 1) ∧
      waitErrorMessage (wait_for_transcription_with_logging c st) = some m) ∧
    (∀ (c : Nat → Bool) (st : Nat → AzStatus),
      (∀ i, i < max_polls → c i = false ∧
        (st i = AzStatus.running ∨ st i = AzStatus.notStarted)) →
      wait_for_transcription_with_logging c st = WaitOutcome.timedOut max_polls ∧
      waitErrorMessage (wait_for_transcription_with_logging c st) =
        some "Transcription timed out") := by
  constructor
  · intro c st k m hk hpre hck hstk
    have hmain : wait_for_transcription_with_logging c st =
        WaitOutcome.failedWith m (k + 1) := by
      unfold wait_for_transcription_with_logging
      rw [show max_polls = k + (max_polls - k) by omega]
      rw [wait_aux_skip c st k 0 (max_polls - k) (by simpa using hpre)]
      rw [show max_polls - k = (max_polls - k - 1) + 1 by omega]
      unfold wait_aux
      rw [show (0 : Nat) + k = k by omega, hck, hstk]
      rfl
    exact ⟨hmain, by rw [hmain]; rfl⟩
  · intro c st hpre
    have hmain : wait_for_transcription_with_logging c st =
        WaitOutcome.timedOut max_polls := by
      unfold wait_for_transcription_with_logging
      rw [show max_polls = max_polls + 0 by omega]
      rw [wait_aux_skip c st max_polls 0 0 (by simpa using hpre)]
      rw [show (0 : Nat) + max_polls = max_polls by omega]
      rfl
    exact ⟨hmain, by rw [hmain]; rfl⟩

/-- Witness for C8: with the status oracle failing at poll two the loop
ends after three polls with the reported message, and with a never
terminating status oracle it times out at 360 polls. -/
theorem C8_poll_loop_failure_and_timeout_witness :
    wait_for_transcription_with_logging (fun _ => false)
        (fun i => if i = 2 then AzStatus.failedStatus (some "bad audio")
                  else AzStatus.running) =
      WaitOutcome.failedWith "bad audio" 3 ∧
    wait_for_transcription_with_logging (fun _ => false) (fun _ => AzStatus.running) =
      WaitOutcome.timedOut 360 := by
  constructor
  · exact (C8_poll_loop_failure_and_timeout.1 (fun _ => false)
      (fun i => if i = 2 then AzStatus.failedStatus (some "bad audio")
                else AzStatus.running) 2 "bad audio"
      (by decide)
      (by
        intro i hi
        refine ⟨rfl, Or.inl ?_⟩
        have : i ≠ 2 := by omega
        simp [this])
      rfl (by simp)).1
  · exact (C8_poll_loop_failure_and_timeout.2 (fun _ => false)
      (fun _ => AzStatus.running)
      (fun i _ => ⟨rfl, Or.inl rfl⟩)).1

/-! C5: cancellation versus the failed transition and the notifier. -/

def audioEnvC5 : AudioEnv :=
  { convert := Except.ok (), upload := Except.ok ("https://sas", "audio/b1.ogg"),
    create := Except.ok "az1", cancelledAtPoll := fun _ => true,
    statusAt := fun _ => AzStatus.running }

/-- C5 counterexample: a cancellation observed during the wait loop of
transcribe_audio_data is caught by its generic exception handler, which
marks the job failed and spawns the failure notifier, refuting the claim
for that pipeline. -/
theorem C5_cancelled_audio_data_marked_failed_counterexample :
    (transcribe_audio_data audioEnvC5).observed_cancellation = true ∧
    (transcribe_audio_data audioEnvC5).marked_failed = true ∧
    (transcribe_audio_data audioEnvC5).notifier_spawned = true ∧
    (transcribe_audio_data audioEnvC5).exitKind =
      PipeExit.raisedFailed "Transcription was cancelled" := by
  exact ⟨rfl, rfl, rfl, rfl⟩

/-- C5 amended: in transcribe_file an observed cancellation never marks
the job failed and never spawns the notifier while the blob cleanup still
runs whenever a blob was staged, and update_job_status spawns the failure
notifier exactly on the failed transition of an existing job; in
transcribe_audio_data, however, an observed cancellation is converted into
a failed transition with a notifier. -/
theorem C5_cancellation_not_failed :
    (∀ env : PipelineEnv,
      (transcribe_file env).exitKind = PipeExit.cancelledReturn →
      (transcribe_file env).marked_failed = false ∧
      (transcribe_file env).notifier_spawned = false ∧
      ((transcribe_file env).blobSet = true →
        (transcribe_file env).blob_delete_attempted = true)) ∧
    (∀ (s : Store) (sid jid : String) (st : JobStatus) (u : JobUpdate) (now : Nat),
      (update_job_status s sid jid st u now).2 = true ↔
        (st = JobStatus.failed ∧ (get_job s sid jid).isSome = true)) := by
  constructor
  · intro env
    unfold transcribe_file
    split
    · simp
    · split
      · simp
      · rcases hi : transcribe_file_inner env with ⟨ex, bs, az, td, mc⟩
        cases ex <;> simp
  · intro s sid jid st u now
    unfold update_job_status
    cases hg : get_job s sid jid with
    | none => simp
    | some j => simp

def envC5w : PipelineEnv :=
  { extract := Except.ok "/tmp/a.ogg", cancelledBeforeUpload := false,
    upload := Except.ok ("https://sas", "audio/b1.ogg"),
    cancelledBeforeCreate := false, create := Except.ok "az1",
    cancelledAtPoll := fun _ => true, statusAt := fun _ => AzStatus.running }

/-- Witness for C5 at a run of transcribe_file that observes cancellation
during the wait loop. -/
theorem C5_cancellation_not_failed_witness :
    (transcribe_file envC5w).marked_failed = false ∧
    (transcribe_file envC5w).notifier_spawned = false ∧
    ((transcribe_file envC5w).blobSet = true →
      (transcribe_file envC5w).blob_delete_attempted = true) := by
  exact C5_cancellation_not_failed.1 envC5w rfl

/-! C1: the cleanup contract of the pipelines. -/

def envC1 : PipelineEnv :=
  { extract := Except.ok "/tmp/a.ogg", cancelledBeforeUpload := false,
    upload := Except.ok ("https://sas", "audio/b1.ogg"),
    cancelledBeforeCreate := false, create := Except.ok "az1",
    cancelledAtPoll := fun _ => false,
    statusAt := fun _ => AzStatus.failedStatus (some "bad audio") }

/-- C1 counterexample: a transcribe_file run whose remote job was created
and whose first poll reports Failed exits with the remote job id set but
without any delete_transcription attempt, refuting the claim that the
remote-job delete is attempted on every such exit. -/
theorem C1_failed_exit_skips_remote_delete_counterexample :
    (transcribe_file envC1).azureIdSet = true ∧
    (transcribe_file envC1).exitKind = PipeExit.raisedFailed "bad audio" ∧
    (transcribe_file envC1).trans_delete_attempted = false := by
  exact ⟨rfl, rfl, rfl⟩

theorem transcribe_file_inner_invariant (env : PipelineEnv) :
    ((transcribe_file_inner env).azureIdSet = true →
      (transcribe_file_inner env).blobSet = true) ∧
    (transcribe_file_inner env).trans_delete_attempted =
      (transcribe_file_inner env).marked_completed := by
  unfold transcribe_file_inner
  repeat' split
  all_goals simp

/-- C1 amended: on every exit of transcribe_file with the remote job id
set, the blob delete and the temp-audio unlink are attempted, but the
remote-job delete is attempted exactly when the run reached the completed
transition (so never on error or cancellation exits); transcribe_audio_data
does attempt the remote-job delete, the blob delete and the temp-dir
removal on every exit with the remote job id set. -/
theorem C1_cleanup_contract :
    (∀ env : PipelineEnv, (transcribe_file env).azureIdSet = true →
      (transcribe_file env).blob_delete_attempted = true ∧
      (transcribe_file env).audio_unlink_attempted = true ∧
      (transcribe_file env).trans_delete_attempted =
        (transcribe_file env).marked_completed) ∧
    (∀ env : AudioEnv, (transcribe_audio_data env).azureIdSet = true →
      (transcribe_audio_data env).blob_delete_attempted = true ∧
      (transcribe_audio_data env).trans_delete_attempted = true ∧
      (transcribe_audio_data env).temp_dir_removed = true) := by
  constructor
  · intro env
    have hinner := transcribe_file_inner_invariant env
    unfold transcribe_file
    split
    · simp
    · split
      · simp
      · rcases hi : transcribe_file_inner env with ⟨ex, bs, az, td, mc⟩
        rw [hi] at hinner
        cases ex <;> exact fun h => ⟨hinner.1 h, rfl, hinner.2⟩
  · intro env
    unfold transcribe_audio_data
    repeat' split
    all_goals simp

def envC1ok : PipelineEnv :=
  { extract := Except.ok "/tmp/a.ogg", cancelledBeforeUpload := false,
    upload := Except.ok ("https://sas", "audio/b1.ogg"),
    cancelledBeforeCreate := false, create := Except.ok "az1",
    cancelledAtPoll := fun _ => false, statusAt := fun _ => AzStatus.succeeded }

def audioEnvC1 : AudioEnv :=
  { convert := Except.ok (), upload := Except.ok ("https://sas", "audio/b2.ogg"),
    create := Except.ok "az2", cancelledAtPoll := fun _ => false,
    statusAt := fun _ => AzStatus.failedStatus (some "bad audio") }

/-- Witness for C1 at a completing transcribe_file run and at a failing
transcribe_audio_data run. -/
theorem C1_cleanup_contract_witness :
    ((transcribe_file envC1ok).blob_delete_attempted = true ∧
     (transcribe_file envC1ok).audio_unlink_attempted = true ∧
     (transcribe_file envC1ok).trans_delete_attempted =
       (transcribe_file envC1ok).marked_completed) ∧
    ((transcribe_audio_data audioEnvC1).blob_delete_attempted = true ∧
     (transcribe_audio_data audioEnvC1).trans_delete_attempted = true ∧
     (transcribe_audio_data audioEnvC1).temp_dir_removed = true) := by
  exact ⟨C1_cleanup_contract.1 envC1ok rfl, C1_cleanup_contract.2 audioEnvC1 rfl⟩

/-! C6: upload retry behaviour. -/

/-- C6 counterexample: with every attempt failing transiently, the utils
upload makes its 3 attempts but sleeps only 2 s and 4 s between them: the
claimed backoff sequence of 2 s, 4 s and 8 s never occurs, since the third
failed attempt re-raises without a further delay. -/
theorem C6_backoff_counterexample :
    upload_audio_with_retry (fun _ => AttemptOutcome.transientErr "conn reset") =
      { attempts := 3, sleeps := [2, 4],
        result := UploadResultKind.raisedTransient "conn reset" } ∧
    ([2, 4] : List Nat) ≠ [2, 4, 8] := by
  exact ⟨rfl, by decide⟩

/-- C6 amended: the utils upload retries caught transient errors up to 3
attempts with backoff sleeps of 2 s then 4 s (no 8 s sleep is ever
performed), an uncaught error on the first attempt propagates at once
without retry or sleep, a transient first failure followed by success ends
after 2 attempts and one 2 s sleep, never more than 3 attempts are made,
and the top-level client used by TranscriptionService performs exactly one
attempt with no sleeps at all. -/
theorem C6_retry_behaviour :
    (∀ (oc : Nat → AttemptOutcome) (m : String),
      oc 1 = AttemptOutcome.fatalErr m →
      upload_audio_with_retry oc =
        { attempts := 1, sleeps := [], result := UploadResultKind.raisedFatal m }) ∧
    (∀ (oc : Nat → AttemptOutcome) (m1 m2 m3 : String),
      oc 1 = AttemptOutcome.transientErr m1 →
      oc 2 = AttemptOutcome.transientErr m2 →
      oc 3 = AttemptOutcome.transientErr m3 →
      upload_audio_with_retry oc =
        { attempts := 3, sleeps := [2, 4],
          result := UploadResultKind.raisedTransient m3 }) ∧
    (∀ (oc : Nat → AttemptOutcome) (m : String),
      oc 1 = AttemptOutcome.transientErr m →
      oc 2 = AttemptOutcome.success →
      upload_audio_with_retry oc =
        { attempts := 2, sleeps := [2], result := UploadResultKind.ok }) ∧
    (∀ oc : Nat → AttemptOutcome, (upload_audio_with_retry oc).attempts ≤ 3) ∧
    (∀ oc : Nat → AttemptOutcome,
      (upload_audio_single oc).attempts = 1 ∧ (upload_audio_single oc).sleeps = []) := by
  refine ⟨?_, ?_, ?_, ?_, ?_⟩
  · intro oc m h1
    unfold upload_audio_with_retry max_retries
    unfold upload_attempt_loop
    rw [h1]
  · intro oc m1 m2 m3 h1 h2 h3
    unfold upload_audio_with_retry max_retries
    unfold upload_attempt_loop
    rw [h1]
    simp only [max_retries]
    norm_num
    unfold upload_attempt_loop
    rw [h2]
    simp only [max_retries]
    norm_num
    unfold upload_attempt_loop
    rw [h3]
    simp only [max_retries]
    norm_num
  · intro oc m h1 h2
    unfold upload_audio_with_retry max_retries
    unfold upload_attempt_loop
    rw [h1]
    simp only [max_retries]
    norm_num
    unfold upload_attempt_loop
    rw [h2]
    exact ⟨rfl, rfl, rfl⟩
  · intro oc
    unfold upload_audio_with_retry max_retries
    unfold upload_attempt_loop
    cases oc 1 <;> simp only [max_retries] <;> try omega
    · norm_num
      unfold upload_attempt_loop
      cases oc 2 <;> simp only [max_retries] <;> try omega
      · norm_num
        unfold upload_attempt_loop
        cases oc 3 <;> simp only [max_retries] <;> try omega
        · norm_num
  · intro oc
    unfold upload_audio_single
    cases oc 1 <;> exact ⟨rfl, rfl⟩

/-- Witness for C6 at concrete outcome oracles. -/
theorem C6_retry_behaviour_witness :
    upload_audio_with_retry (fun _ => AttemptOutcome.fatalErr "authorization denied") =
      { attempts := 1, sleeps := [],
        result := UploadResultKind.raisedFatal "authorization denied" } ∧
    upload_audio_with_retry
        (fun n => if n = 1 then AttemptOutcome.transientErr "timeout"
                  else AttemptOutcome.success) =
      { attempts := 2, sleeps := [2], result := UploadResultKind.ok } ∧
    (upload_audio_single (fun _ => AttemptOutcome.transientErr "timeout")).attempts = 1 := by
  refine ⟨?_, ?_, ?_⟩
  · exact C6_retry_behaviour.1 (fun _ => AttemptOutcome.fatalErr "authorization denied")
      "authorization denied" rfl
  · exact (C6_retry_behaviour.2.2.1)
      (fun n => if n = 1 then AttemptOutcome.transientErr "timeout"
                else AttemptOutcome.success) "timeout" rfl rfl
  · exact ((C6_retry_behaviour.2.2.2.2)
      (fun _ => AttemptOutcome.transientErr "timeout")).1

/-! C3: which locale becomes the result language. -/

def phraseC3 : RecognizedPhrase :=
  { offsetInTicks := 0, durationInTicks := 20000000, locale := some "nl-NL",
    nBest := [{ display := "Hallo dit is een test.", confidence := 95 / 100 }] }

/-- C3 counterexample: on a payload whose phrase reports the locale nl-NL
under a job declared as en-US, the top-level get_transcription_result (the
one TranscriptionService imports) returns the job locale, not the phrase
locale; the utils client returns the phrase locale. -/
theorem C3_app_client_ignores_phrase_locale_counterexample :
    (get_transcription_result_app "job1" "en-US" [phraseC3]).language = "en-US" ∧
    (get_transcription_result_utils "job1" "en-US" [phraseC3]).language = "nl-NL" ∧
    ("en-US" : String) ≠ "nl-NL" := by
  exact ⟨rfl, rfl, by decide⟩

theorem detected_locale_eq_none (phrases : List RecognizedPhrase)
    (h : ∀ p ∈ phrases, p.locale = none) : detected_locale phrases = none := by
  induction phrases with
  | nil => rfl
  | cons p ps ih =>
      have hp := h p (List.mem_cons_self p ps)
      simp only [detected_locale, hp]
      exact ih (fun q hq => h q (List.mem_cons_of_mem p hq))

/-- C3 amended: in the utils client the first phrase carrying a locale
wins and the job locale is used only when no phrase carries one, exactly
as claimed; the top-level client used by TranscriptionService, however,
always returns the job locale regardless of phrase locales. -/
theorem C3_result_language_selection :
    (∀ (jid jloc l : String) (p : RecognizedPhrase) (rest : List RecognizedPhrase),
      p.locale = some l →
      (get_transcription_result_utils jid jloc (p :: rest)).language = l) ∧
    (∀ (jid jloc : String) (phrases : List RecognizedPhrase),
      (∀ p ∈ phrases, p.locale = none) →
      (get_transcription_result_utils jid jloc phrases).language = jloc) ∧
    (∀ (jid jloc : String) (phrases : List RecognizedPhrase),
      (get_transcription_result_app jid jloc phrases).language = jloc) := by
  refine ⟨?_, ?_, ?_⟩
  · intro jid jloc l p rest h
    unfold get_transcription_result_utils
    simp only [detected_locale, h, Option.getD_some]
  · intro jid jloc phrases h
    unfold get_transcription_result_utils
    rw [detected_locale_eq_none phrases h]
    rfl
  · intro jid jloc phrases
    rfl

/-- Witness for C3 at concrete payloads. -/
theorem C3_result_language_selection_witness :
    (get_transcription_result_utils "job2" "en-US" [phraseC3]).language = "nl-NL" ∧
    (get_transcription_result_utils "job2" "en-US"
        [{ phraseC3 with locale := none }]).language = "en-US" ∧
    (get_transcription_result_app "job2" "en-US" [phraseC3]).language = "en-US" := by
  refine ⟨?_, ?_, ?_⟩
  · exact C3_result_language_selection.1 "job2" "en-US" "nl-NL" phraseC3 [] rfl
  · exact C3_result_language_selection.2.1 "job2" "en-US"
      [{ phraseC3 with locale := none }] (by
        intro p hp
        simp only [List.mem_singleton] at hp
        rw [hp])
  · exact C3_result_language_selection.2.2 "job2" "en-US" [phraseC3]

/-! C2: the unknown-audio-language rule. -/

def mediaC2 : MediaFileModel :=
  { fileExists := true, audio := [{ language := "und" }], subtitle := [],
    externalSubs := [] }

def cfgC2 : SkipConfig :=
  { skip_if_target_subtitles_exist := false, skip_unknown_language := true }

/-- C2: with skip_unknown_language enabled but no internal-language, audio
or subtitle skip lists configured, a file whose only audio track is tagged
und is NOT skipped, because the stream probe is gated on those other
options alone; adding any of them (here an audio skip list that matches
nothing) makes the very same unknown-audio rule fire.  This exhibits the
failing input of the claim and pinpoints the gating slip. -/
theorem C2_unknown_audio_rule_gated :
    (∀ langMatch : String → String → Bool,
      should_skip_file langMatch mediaC2 "en" cfgC2 = SkipDecision.proceed) ∧
    should_skip_file (fun a b => a == b) mediaC2 "en"
        { cfgC2 with audio_language_skip_list := ["zz"] } =
      SkipDecision.skip SkipReason.unknownAudioLanguage := by
  exact ⟨fun _ => rfl, rfl⟩

/-! C7: the global transcription gate. -/

theorem gate_reachable_invariant (g : TranscriptionGate)
    (h : GateReachable g) : g.capacity = 50 ∧ g.running.length ≤ g.capacity := by
  induction h with
  | init => exact ⟨rfl, by simp [initGate]⟩
  | acquire idn priority hg ih =>
      obtain ⟨hcap, hlen⟩ := ih
      unfold acquire_transcription_slot
      split
      · rename_i hlt
        exact ⟨hcap, by simpa using Nat.succ_le_of_lt hlt⟩
      · split <;> exact ⟨hcap, hlen⟩
  | @release g2 idn hg hmem ih =>
      obtain ⟨hcap, hlen⟩ := ih
      have herase : (g2.running.erase idn).length = g2.running.length - 1 :=
        List.length_erase_of_mem hmem
      have hpos : 0 < g2.running.length := List.length_pos_of_mem hmem
      dsimp only [release_transcription_slot]
      cases hpq : g2.priority_waiters with
      | cons w rest =>
          dsimp only
          refine ⟨hcap, ?_⟩
          simp only [List.length_cons, herase]
          omega
      | nil =>
          cases hnq : g2.normal_waiters with
          | cons w rest =>
              dsimp only
              refine ⟨hcap, ?_⟩
              simp only [List.length_cons, herase]
              omega
          | nil =>
              dsimp only
              refine ⟨hcap, ?_⟩
              simp only [herase]
              omega

/-- C7: modelled from the spec (the gate operations are exercised only by
the tests in the snapshot): in every gate state reachable from the
initialised gate, at most 50 pipelines hold permits simultaneously,
regardless of how acquires and releases interleave; and a release always
serves the head of the priority queue before any normal waiter, leaving
the normal queue untouched, while with an empty priority queue it serves
the head of the normal queue. -/
theorem C7_gate_capacity_and_priority :
    (∀ g : TranscriptionGate, GateReachable g → g.running.length ≤ 50) ∧
    (∀ (g : TranscriptionGate) (idn w : Nat) (rest : List Nat),
      g.priority_waiters = w :: rest →
      (release_transcription_slot g idn).running = w :: g.running.erase idn ∧
      (release_transcription_slot g idn).priority_waiters = rest ∧
      (release_transcription_slot g idn).normal_waiters = g.normal_waiters) ∧
    (∀ (g : TranscriptionGate) (idn w : Nat) (rest : List Nat),
      g.priority_waiters = [] → g.normal_waiters = w :: rest →
      (release_transcription_slot g idn).running = w :: g.running.erase idn ∧
      (release_transcription_slot g idn).normal_waiters = rest) := by
  refine ⟨?_, ?_, ?_⟩
  · intro g h
    have := gate_reachable_invariant g h
    omega
  · intro g idn w rest h
    unfold release_transcription_slot
    rw [h]
    exact ⟨rfl, rfl, rfl⟩
  · intro g idn w rest hp hn
    unfold release_transcription_slot
    rw [hp, hn]
    exact ⟨rfl, rfl⟩

def gateC7 : TranscriptionGate :=
  acquire_transcription_slot (acquire_transcription_slot initGate 7 false) 9 true

def gatePrioC7 : TranscriptionGate :=
  { capacity := 50, running := [1], priority_waiters := [8], normal_waiters := [5] }

/-- Witness for C7 at a concrete reachable state and a concrete release
with a waiting priority acquirer. -/
theorem C7_gate_capacity_and_priority_witness :
    gateC7.running.length ≤ 50 ∧
    (release_transcription_slot gatePrioC7 1).running = 8 :: List.erase [1] 1 ∧
    (release_transcription_slot gatePrioC7 1).priority_waiters = [] ∧
    (release_transcription_slot gatePrioC7 1).normal_waiters = [5] := by
  refine ⟨?_, ?_⟩
  · exact C7_gate_capacity_and_priority.1 gateC7
      (GateReachable.acquire 9 true (GateReachable.acquire 7 false GateReachable.init))
  · exact C7_gate_capacity_and_priority.2.1 gatePrioC7 1 8 [] rfl
